import Mathlib

/-!
# Verification of the Baza_Mapa route simulator and accident-risk engine

Shallow embedding of the two core components of the repository:

* `AutoSimulator` (`Prostorni indeksi/auto_simulator.py`): a cursor moving
  along a polyline route.  Python floats are modelled as rationals (`ℚ`).
  The geodesic length of a segment is computed by the external `geopy`
  library; it is modelled as an explicit distance-function parameter
  `dist : (ℚ × ℚ) → (ℚ × ℚ) → ℚ`.  The `running` flag of the Python class
  is a driver-loop flag, not part of the simulator state described by the
  spec (§3 SimulatorState), and no claim mentions it, so it is omitted.

* `AccidentWarningSystem` (`zadatak1.py` and
  `Prostorni indeksi/kolokvijum1_spatial.py`; the two copies of the class
  are line-for-line identical on the embedded methods, except that
  `zadatak1.py` has an explicit `geohash` placeholder branch that returns
  `None`).  A raw spreadsheet row carries an optional parsed timestamp
  (`pd.to_datetime(..., errors='coerce')` yields NaT on failure, modelled
  as `none`) and optional coordinates; loading enumerates rows with their
  original dataframe labels (pandas keeps labels after `dropna`/year
  filtering).  The rtree index is modelled by its library contract: the
  list of inserted `(id, point)` entries, where `intersection(bounds)`
  returns the ids of entries whose (degenerate, point) boxes intersect
  the query box, boundaries included.  The search window built by
  `_definisi_oblast_pretrage` involves `math.cos`, an external real-valued
  computation; queries are therefore stated over an arbitrary rectangle
  `Box`, which covers every window the program can build.
-/

namespace BazaMapa

/-! ## AutoSimulator (auto_simulator.py) -/

/-- State of `AutoSimulator` as described by the spec's SimulatorState:
current segment index, progress along it, speed and the derived
per-step distance (`route_coords` and `interval` are immutable and are
passed as parameters). -/
structure AutoSimulator where
  current_segment : ℕ
  progress : ℚ
  speed_kmh : ℚ
  distance_per_step : ℚ
deriving Repr, DecidableEq

/-- Constructor `AutoSimulator.__init__`: segment 0, progress 0,
`distance_per_step = speed_kmh * 1000 / 3600 * interval`. -/
def initAuto (speed_kmh interval : ℚ) : AutoSimulator :=
  ⟨0, 0, speed_kmh, speed_kmh * 1000 / 3600 * interval⟩

/-- Method `AutoSimulator.get_current_position`: past the final segment the last
route point is returned (`route_coords[-1]`); otherwise the current
segment's endpoints are blended linearly with `progress`. -/
def get_current_position (route : List (ℚ × ℚ)) (s : AutoSimulator) : ℚ × ℚ :=
  if (route.length : ℤ) - 1 ≤ (s.current_segment : ℤ) then
    route.getLastD (0, 0)
  else
    let start := route.getD s.current_segment (0, 0)
    let stop := route.getD (s.current_segment + 1) (0, 0)
    (start.1 + (stop.1 - start.1) * s.progress,
     start.2 + (stop.2 - start.2) * s.progress)

/-- Method `AutoSimulator.move`, state part.  `dist` stands for
`geodesic(start, end).meters`; the Python locals `start`, `end`,
`segment_length` and the updated `progress` are inlined.  Mirrors the
source: early return when the cursor is at or past the last point; a
zero-length segment is skipped with progress reset; otherwise progress
grows by `distance_per_step / segment_length`, and on overflow
(`progress >= 1.0`) the cursor moves to the next segment, skipping that
one too when its recomputed length is not positive. -/
def move (route : List (ℚ × ℚ)) (dist : (ℚ × ℚ) → (ℚ × ℚ) → ℚ)
    (s : AutoSimulator) : AutoSimulator :=
  if (route.length : ℤ) - 1 ≤ (s.current_segment : ℤ) then s
  else if dist (route.getD s.current_segment (0, 0))
      (route.getD (s.current_segment + 1) (0, 0)) = 0 then
    { s with current_segment := s.current_segment + 1, progress := 0 }
  else if 1 ≤ s.progress + s.distance_per_step /
        dist (route.getD s.current_segment (0, 0))
          (route.getD (s.current_segment + 1) (0, 0)) ∧
      (s.current_segment : ℤ) < (route.length : ℤ) - 1 then
    if ((s.current_segment + 1 : ℕ) : ℤ) < (route.length : ℤ) - 1 then
      if 0 < dist (route.getD (s.current_segment + 1) (0, 0))
          (route.getD (s.current_segment + 2) (0, 0)) then
        { s with current_segment := s.current_segment + 1, progress := 0 }
      else
        { s with current_segment := s.current_segment + 2, progress := 0 }
    else
      { s with current_segment := s.current_segment + 1, progress := 0 }
  else
    { s with progress := s.progress + s.distance_per_step /
        (dist (route.getD s.current_segment (0, 0))
          (route.getD (s.current_segment + 1) (0, 0))) }

/-- The value returned by `AutoSimulator.move`: the current position of
the (possibly updated) state. -/
def moveReturn (route : List (ℚ × ℚ)) (dist : (ℚ × ℚ) → (ℚ × ℚ) → ℚ)
    (s : AutoSimulator) : ℚ × ℚ :=
  get_current_position route (move route dist s)

/-- Method `AutoSimulator.is_finished`:
`current_segment >= len(route_coords) - 1 and progress >= 1.0`. -/
def is_finished (route : List (ℚ × ℚ)) (s : AutoSimulator) : Bool :=
  decide ((route.length : ℤ) - 1 ≤ (s.current_segment : ℤ)) &&
    decide (1 ≤ s.progress)

/-- Method `AutoSimulator.increase_speed`: +10 km/h and recompute
`distance_per_step`. -/
def increase_speed (interval : ℚ) (s : AutoSimulator) : AutoSimulator :=
  { s with speed_kmh := s.speed_kmh + 10,
           distance_per_step := (s.speed_kmh + 10) * 1000 / 3600 * interval }

/-- Method `AutoSimulator.decrease_speed`: only when the speed exceeds 10 km/h,
subtract 10 and recompute `distance_per_step`; otherwise do nothing. -/
def decrease_speed (interval : ℚ) (s : AutoSimulator) : AutoSimulator :=
  if 10 < s.speed_kmh then
    { s with speed_kmh := s.speed_kmh - 10,
             distance_per_step := (s.speed_kmh - 10) * 1000 / 3600 * interval }
  else s

/-- Snapshot returned by `AutoSimulator.get_progress_info`.
`total_segments` is a Python int and may be negative for an empty route,
hence `ℤ`. -/
structure ProgressInfo where
  segment : ℕ
  total_segments : ℤ
  segment_progress : ℚ
  overall_progress : ℚ
  speed_kmh : ℚ
deriving Repr, DecidableEq

/-- Method `AutoSimulator.get_progress_info`.  The source computes
`(current_segment + progress) / total_segments * 100` with no guard;
when `total_segments = 0` (a one-point route) Python raises
`ZeroDivisionError`, modelled as `none`. -/
def get_progress_info (route : List (ℚ × ℚ)) (s : AutoSimulator) :
    Option ProgressInfo :=
  let total_segments : ℤ := (route.length : ℤ) - 1
  if total_segments = 0 then none
  else
    some ⟨s.current_segment, total_segments, s.progress * 100,
      ((s.current_segment : ℚ) + s.progress) / (total_segments : ℚ) * 100,
      s.speed_kmh⟩

/-- One driver-visible operation on the simulator state. -/
inductive SimOp
  | move
  | increase_speed
  | decrease_speed
deriving Repr, DecidableEq

/-- Apply one operation to the simulator state. -/
def applyOp (route : List (ℚ × ℚ)) (dist : (ℚ × ℚ) → (ℚ × ℚ) → ℚ)
    (interval : ℚ) : SimOp → AutoSimulator → AutoSimulator
  | .move, s => move route dist s
  | .increase_speed, s => increase_speed interval s
  | .decrease_speed, s => decrease_speed interval s

/-- Run a sequence of operations from a starting state. -/
def runOps (route : List (ℚ × ℚ)) (dist : (ℚ × ℚ) → (ℚ × ℚ) → ℚ)
    (interval : ℚ) (ops : List SimOp) (s : AutoSimulator) : AutoSimulator :=
  ops.foldl (fun t op => applyOp route dist interval op t) s

/-- Strict lexicographic order on `(current_segment, progress)`. -/
def lexLt (s t : AutoSimulator) : Prop :=
  s.current_segment < t.current_segment ∨
    (s.current_segment = t.current_segment ∧ s.progress < t.progress)

instance (s t : AutoSimulator) : Decidable (lexLt s t) := by
  unfold lexLt; infer_instance

/-! ## AccidentWarningSystem (zadatak1.py / kolokvijum1_spatial.py) -/

/-- One prepared accident record: the pre-computed hour (`df['sat']`) and
day of year (`df['dan_u_godini']`) plus its point coordinates. -/
structure Record where
  sat : ℕ
  dan_u_godini : ℕ
  lon : ℚ
  lat : ℚ
deriving Repr, DecidableEq

/-- One raw spreadsheet row, as relevant after the column renaming:
`vreme_nezgode` is the result of `pd.to_datetime(..., errors='coerce')`,
projected to the components the code later uses (year, hour, day of year);
`none` models an unparseable date (NaT).  `lon`/`lat` are `none` when the
cell is missing (NaN); all three are dropped by
`dropna(subset=['vreme_nezgode', 'lon', 'lat'])`. -/
structure RawRow where
  vreme_nezgode : Option (ℕ × ℕ × ℕ)
  lon : Option ℚ
  lat : Option ℚ
deriving Repr, DecidableEq

/-- Constant `GODINA_ZA_ANALIZU = 2021`. -/
def GODINA_ZA_ANALIZU : ℕ := 2021

/-- Constant `VREMENSKI_OPSEG_SATI = 1`. -/
def VREMENSKI_OPSEG_SATI : ℤ := 1

/-- Constant `VREMENSKI_OPSEG_DANA = 30`. -/
def VREMENSKI_OPSEG_DANA : ℤ := 30

/-- Method `_ucitaj_i_pripremi_podatke`.  A `none` input models the
`FileNotFoundError` path (the method returns `None`).  Otherwise rows are
enumerated with their original dataframe labels (`read_excel` with
`header=None` yields a `RangeIndex`, and pandas keeps the original labels
through `dropna` and the year filter), rows without a parsed timestamp or
coordinates are dropped, and only rows of the analysis year are kept.  The
result pairs each surviving row's label with its prepared record. -/
def ucitaj_i_pripremi_podatke (data : Option (List RawRow)) :
    Option (List (ℕ × Record)) :=
  match data with
  | none => none
  | some rows =>
    some (rows.enum.filterMap fun p =>
      match p.2.vreme_nezgode, p.2.lon, p.2.lat with
      | some (y, s, d), some lo, some la =>
        if y = GODINA_ZA_ANALIZU then some (p.1, ⟨s, d, lo, la⟩) else none
      | _, _, _ => none)

/-- Method `_izgradi_indeks`.  For `'rtree'` the index is the list of inserted
`(label, point)` entries (`idx.insert(red.Index, red.geometry.bounds)`
inserts the degenerate point box under the dataframe label).  The
`'geohash'` branch of `zadatak1.py` is a placeholder that returns `None`,
and any other type also yields `None`. -/
def izgradi_indeks (gdf : Option (List (ℕ × Record))) (tip : String) :
    Option (List (ℕ × ℚ × ℚ)) :=
  match gdf with
  | none => none
  | some g =>
    if tip = "rtree" then some (g.map fun pr => (pr.1, pr.2.lon, pr.2.lat))
    else if tip = "geohash" then none
    else none

/-- The constructed system: the loaded dataframe and the built index,
both optional exactly as the Python attributes can be `None`. -/
structure AccidentWarningSystem where
  gdf_nezgode : Option (List (ℕ × Record))
  indeks : Option (List (ℕ × ℚ × ℚ))
deriving Repr, DecidableEq

/-- Constructor `AccidentWarningSystem.__init__`: load, build the index, and raise
(`Except.error`) when the index is `None`. -/
def initAccidentWarningSystem (data : Option (List RawRow)) (tip : String) :
    Except String AccidentWarningSystem :=
  let gdf := ucitaj_i_pripremi_podatke data
  match izgradi_indeks gdf tip with
  | none => .error "Indeks nije uspesno izgradjen. Prekidam rad."
  | some idx => .ok ⟨gdf, some idx⟩

/-- An axis-aligned lon/lat rectangle, standing for the shapely `box`
built by `_definisi_oblast_pretrage` (whose exact extent involves the
external `math.cos`; queries are stated over an arbitrary rectangle). -/
structure Box where
  minx : ℚ
  miny : ℚ
  maxx : ℚ
  maxy : ℚ
deriving Repr, DecidableEq

/-- Point/rectangle intersection, boundary inclusive — both the rtree
`intersection` test on a degenerate (point) bounding box and the shapely
`Point.intersects(box)` refinement reduce to this test. -/
def intersectsPoint (b : Box) (x y : ℚ) : Bool :=
  decide (b.minx ≤ x ∧ x ≤ b.maxx ∧ b.miny ≤ y ∧ y ≤ b.maxy)

/-- Selection `gdf.iloc[ids]`: strictly positional selection; any out-of-bounds
position raises `IndexError`, modelled as `none`. -/
def ilocAll (g : List Record) (ids : List ℕ) : Option (List Record) :=
  if ids.all (fun i => i < g.length) then some (ids.filterMap g.get?)
  else none

/-- The candidate ids returned by `self.indeks.intersection(bounds)`:
labels of the inserted entries whose point lies in the query rectangle
(modelled in insertion order). -/
def indeksIntersection (idx : List (ℕ × ℚ × ℚ)) (w : Box) : List ℕ :=
  (idx.filter fun e => intersectsPoint w e.2.1 e.2.2).map (·.1)

/-- Method `proveri_opasnosti_na_deonici`, after the search window has been
built: the index query, the `iloc` selection of the candidate rows, the
exact-intersection refinement, the early `(0, 0, 0)` returns, and the two
inclusive temporal `between` filters on the pre-computed `sat` /
`dan_u_godini` columns (`sat`, `dan` are the query's hour and day of
year; the bounds are plain integers, `hour - 1` at hour `0` is `-1`). -/
def proveri_opasnosti_na_deonici (gdf : List (ℕ × Record))
    (idx : List (ℕ × ℚ × ℚ)) (w : Box) (sat dan : ℤ) :
    Option (ℕ × ℕ × ℕ) :=
  let ids_kandidata := indeksIntersection idx w
  if ids_kandidata = [] then some (0, 0, 0)
  else
    match ilocAll (gdf.map (·.2)) ids_kandidata with
    | none => none
    | some rows =>
      let nezgode_u_oblasti := rows.filter fun r => intersectsPoint w r.lon r.lat
      let broj_ukupno := nezgode_u_oblasti.length
      if broj_ukupno = 0 then some (0, 0, 0)
      else
        let broj_doba_dana := (nezgode_u_oblasti.filter fun r =>
          decide (sat - VREMENSKI_OPSEG_SATI ≤ (r.sat : ℤ) ∧
            (r.sat : ℤ) ≤ sat + VREMENSKI_OPSEG_SATI)).length
        let broj_doba_godine := (nezgode_u_oblasti.filter fun r =>
          decide (dan - VREMENSKI_OPSEG_DANA ≤ (r.dan_u_godini : ℤ) ∧
            (r.dan_u_godini : ℤ) ≤ dan + VREMENSKI_OPSEG_DANA)).length
        some (broj_ukupno, broj_doba_dana, broj_doba_godine)

/-- The refined candidate list of a query: the rows selected through the
index and `iloc`, kept only when they exactly intersect the window.  The
temporal counts of `proveri_opasnosti_na_deonici` are counts over this
list. -/
def refinedCandidates (gdf : List (ℕ × Record)) (idx : List (ℕ × ℚ × ℚ))
    (w : Box) : Option (List Record) :=
  match ilocAll (gdf.map (·.2)) (indeksIntersection idx w) with
  | none => none
  | some rows => some (rows.filter fun r => intersectsPoint w r.lon r.lat)

/-- Modelled from the spec: the exact geometric answer — the number of
loaded records whose point lies inside the search window. -/
def exactCountInWindow (gdf : List (ℕ × Record)) (w : Box) : ℕ :=
  ((gdf.map (·.2)).filter fun r => intersectsPoint w r.lon r.lat).length

/-- Score `skor` of `klasifikuj_opasnost`:
`ukupno * 1 + doba_godine * 1.5 + doba_dana * 2` as a rational. -/
def skor (ukupno doba_dana doba_godine : ℕ) : ℚ :=
  (ukupno : ℚ) * 1 + (doba_godine : ℚ) * (3 / 2) + (doba_dana : ℚ) * 2

/-- Method `klasifikuj_opasnost`: threshold cascade on the weighted score. -/
def klasifikuj_opasnost (ukupno doba_dana doba_godine : ℕ) : String :=
  let s := skor ukupno doba_dana doba_godine
  if 15 < s then "VEOMA OPASNO"
  else if 8 < s then "OPASNO"
  else if 2 < s then "UMERENO OPASNO"
  else "Bezbedno"

/-! ## Helper lemmas about the simulator -/

/-- A `move` never changes the speed. -/
theorem move_speed_kmh (route : List (ℚ × ℚ)) (dist : (ℚ × ℚ) → (ℚ × ℚ) → ℚ)
    (s : AutoSimulator) : (move route dist s).speed_kmh = s.speed_kmh := by
  unfold move
  split_ifs <;> rfl

/-- A `move` never changes the per-step distance. -/
theorem move_distance_per_step (route : List (ℚ × ℚ))
    (dist : (ℚ × ℚ) → (ℚ × ℚ) → ℚ) (s : AutoSimulator) :
    (move route dist s).distance_per_step = s.distance_per_step := by
  unfold move
  split_ifs <;> rfl

/-- Iterated `move` never changes the per-step distance. -/
theorem iterate_move_distance_per_step (route : List (ℚ × ℚ))
    (dist : (ℚ × ℚ) → (ℚ × ℚ) → ℚ) (s : AutoSimulator) (k : ℕ) :
    ((move route dist)^[k] s).distance_per_step = s.distance_per_step := by
  induction k with
  | zero => rfl
  | succ k ih =>
    rw [Function.iterate_succ_apply', move_distance_per_step, ih]

/-- A single `move` keeps `progress` strictly below `1`: whenever the
incremented progress reaches `1` the cursor is moved on and progress is
reset to `0`. -/
theorem move_progress_lt_one (route : List (ℚ × ℚ))
    (dist : (ℚ × ℚ) → (ℚ × ℚ) → ℚ) (s : AutoSimulator)
    (h : s.progress < 1) : (move route dist s).progress < 1 := by
  unfold move
  split_ifs with h1 h2 h3 h4 h5
  · exact h
  · norm_num
  · norm_num
  · norm_num
  · norm_num
  · -- branch where the incremented progress stayed below the reset test
    rcases not_and_or.mp h3 with h' | h'
    · exact lt_of_not_le h'
    · exact absurd (by omega) h'

/-- Iterated `move` keeps `progress` strictly below `1`. -/
theorem iterate_move_progress_lt_one (route : List (ℚ × ℚ))
    (dist : (ℚ × ℚ) → (ℚ × ℚ) → ℚ) (s : AutoSimulator)
    (h : s.progress < 1) (k : ℕ) :
    ((move route dist)^[k] s).progress < 1 := by
  induction k with
  | zero => exact h
  | succ k ih =>
    rw [Function.iterate_succ_apply']
    exact move_progress_lt_one _ _ _ ih

/-- A `move` keeps the segment cursor at or below the last point index. -/
theorem move_current_segment_le (route : List (ℚ × ℚ))
    (dist : (ℚ × ℚ) → (ℚ × ℚ) → ℚ) (s : AutoSimulator)
    (h : s.current_segment ≤ route.length - 1) :
    (move route dist s).current_segment ≤ route.length - 1 := by
  unfold move
  split_ifs with h1 h2 h3 h4 h5 <;> (try dsimp only) <;> omega

/-- At or past the last point index, `move` is the identity on the
state. -/
theorem move_of_terminal (route : List (ℚ × ℚ))
    (dist : (ℚ × ℚ) → (ℚ × ℚ) → ℚ) (s : AutoSimulator)
    (h : (route.length : ℤ) - 1 ≤ (s.current_segment : ℤ)) :
    move route dist s = s := by
  unfold move
  rw [if_pos h]

/-- At or past the last point index, the current position is the route's
last point. -/
theorem get_current_position_of_terminal (route : List (ℚ × ℚ))
    (s : AutoSimulator)
    (h : (route.length : ℤ) - 1 ≤ (s.current_segment : ℤ)) :
    get_current_position route s = route.getLastD (0, 0) := by
  unfold get_current_position
  rw [if_pos h]

/-- Speed changes do not touch the segment cursor or the progress. -/
theorem applyOp_current_segment_le (route : List (ℚ × ℚ))
    (dist : (ℚ × ℚ) → (ℚ × ℚ) → ℚ) (interval : ℚ) (op : SimOp)
    (s : AutoSimulator) (h : s.current_segment ≤ route.length - 1) :
    (applyOp route dist interval op s).current_segment ≤ route.length - 1 := by
  cases op with
  | move => exact move_current_segment_le route dist s h
  | increase_speed => exact h
  | decrease_speed =>
    show (decrease_speed interval s).current_segment ≤ route.length - 1
    unfold decrease_speed
    split_ifs <;> exact h

/-- Any operation sequence keeps the segment cursor at or below the last
point index. -/
theorem runOps_current_segment_le (route : List (ℚ × ℚ))
    (dist : (ℚ × ℚ) → (ℚ × ℚ) → ℚ) (interval : ℚ) (ops : List SimOp)
    (s : AutoSimulator) (h : s.current_segment ≤ route.length - 1) :
    (runOps route dist interval ops s).current_segment ≤ route.length - 1 := by
  induction ops generalizing s with
  | nil => exact h
  | cons op ops ih =>
    exact ih _ (applyOp_current_segment_le route dist interval op s h)

/-! ## Test fixtures (concrete routes, distance tables and datasets) -/

/-- A one-point route (single coordinate pair), for the degenerate-route
claims. -/
def routeC3 : List (ℚ × ℚ) := [(224 / 5, 102 / 5)]

/-- A two-point route. -/
def routeC2 : List (ℚ × ℚ) := [(0, 0), (1, 0)]

/-- A three-point route whose first two points coincide (a zero-length
first segment). -/
def routeC7 : List (ℚ × ℚ) := [(0, 0), (0, 0), (0, 1)]

/-- Distance table: every segment is 1 meter long. -/
def distOne : (ℚ × ℚ) → (ℚ × ℚ) → ℚ := fun _ _ => 1

/-- Distance table: every segment is 100 meters long. -/
def distHundred : (ℚ × ℚ) → (ℚ × ℚ) → ℚ := fun _ _ => 100

/-- Distance table: duplicate points are 0 meters apart, all other pairs
100 meters. -/
def distGeo : (ℚ × ℚ) → (ℚ × ℚ) → ℚ := fun a b => if a = b then 0 else 100

/-! ## Claims -/

/-- C3: for a route with exactly one point, `advance()` is a no-op
returning the single point and `currentPosition()` returns it without
error — but, contrary to the claim, `is_finished()` is `false` right
after construction (it requires `progress >= 1.0`, and progress is `0`),
and `get_progress_info()` hits an unguarded division by
`total_segments = 0` (`ZeroDivisionError`, modelled as `none`). -/
theorem c3_single_point_route_code_bug :
    move routeC3 distGeo (initAuto 60 1) = initAuto 60 1
    ∧ moveReturn routeC3 distGeo (initAuto 60 1) = (224 / 5, 102 / 5)
    ∧ get_current_position routeC3 (initAuto 60 1) = (224 / 5, 102 / 5)
    ∧ is_finished routeC3 (initAuto 60 1) = false
    ∧ get_progress_info routeC3 (initAuto 60 1) = none := by
  refine ⟨rfl, rfl, rfl, rfl, rfl⟩

/-- C5: the danger classification is a deterministic threshold cascade on
the weighted score `ukupno * 1 + doba_godine * 1.5 + doba_dana * 2`
(source labels: "VEOMA OPASNO" / "OPASNO" / "UMERENO OPASNO" /
"Bezbedno", the spec's "Very Dangerous" / "Dangerous" / "Moderately
Dangerous" / "Safe"), and the claim's three examples evaluate as stated:
10 candidates in both windows score 45, no candidates are "Safe", and
3 total with 0 in-hour and 1 in-season score 4.5. -/
theorem c5_classification :
    (∀ u dd dg : ℕ,
      klasifikuj_opasnost u dd dg = "VEOMA OPASNO" ↔ 15 < skor u dd dg)
    ∧ (∀ u dd dg : ℕ,
      klasifikuj_opasnost u dd dg = "OPASNO" ↔
        8 < skor u dd dg ∧ skor u dd dg ≤ 15)
    ∧ (∀ u dd dg : ℕ,
      klasifikuj_opasnost u dd dg = "UMERENO OPASNO" ↔
        2 < skor u dd dg ∧ skor u dd dg ≤ 8)
    ∧ (∀ u dd dg : ℕ,
      klasifikuj_opasnost u dd dg = "Bezbedno" ↔ skor u dd dg ≤ 2)
    ∧ skor 10 10 10 = 45 ∧ klasifikuj_opasnost 10 10 10 = "VEOMA OPASNO"
    ∧ klasifikuj_opasnost 0 0 0 = "Bezbedno"
    ∧ skor 3 0 1 = 9 / 2 ∧ klasifikuj_opasnost 3 0 1 = "UMERENO OPASNO" := by
  refine ⟨?_, ?_, ?_, ?_, by norm_num [skor],
    by norm_num [klasifikuj_opasnost, skor],
    by norm_num [klasifikuj_opasnost, skor], by norm_num [skor],
    by norm_num [klasifikuj_opasnost, skor]⟩ <;>
  · intro u dd dg
    simp only [klasifikuj_opasnost]
    split_ifs with h1 h2 h3 <;> simp_all <;> first
    | (intro hx; linarith)
    | linarith

/-- C7: when the current segment has exactly zero length and the cursor
is not past the last point, a single `move` increments the segment index
by one, resets progress to `0`, leaves speed and per-step distance
untouched, and returns the position of that new state (no distance is
consumed this tick). -/
theorem c7_zero_length_segment_skip (route : List (ℚ × ℚ))
    (dist : (ℚ × ℚ) → (ℚ × ℚ) → ℚ) (s : AutoSimulator)
    (hc : (s.current_segment : ℤ) < (route.length : ℤ) - 1)
    (hL : dist (route.getD s.current_segment (0, 0))
      (route.getD (s.current_segment + 1) (0, 0)) = 0) :
    move route dist s =
      { s with current_segment := s.current_segment + 1, progress := 0 }
    ∧ moveReturn route dist s = get_current_position route
        { s with current_segment := s.current_segment + 1, progress := 0 } := by
  have hmove : move route dist s =
      { s with current_segment := s.current_segment + 1, progress := 0 } := by
    unfold move
    rw [if_neg (by omega), if_pos hL]
  exact ⟨hmove, by unfold moveReturn; rw [hmove]⟩

/-- Witness for C7 at a concrete input: the three-point route whose
first segment is degenerate. -/
theorem c7_witness :
    ((0 : ℤ) < (routeC7.length : ℤ) - 1
      ∧ distGeo (routeC7.getD 0 (0, 0)) (routeC7.getD 1 (0, 0)) = 0)
    ∧ move routeC7 distGeo (initAuto 60 1) =
        { initAuto 60 1 with current_segment := 1, progress := 0 } := by
  refine ⟨⟨by decide, by decide⟩, ?_⟩
  exact (c7_zero_length_segment_skip routeC7 distGeo (initAuto 60 1)
    (by decide) (by decide)).1

/-- C9 counterexample: there is no configured positive floor that every
speed decrease respects.  For any candidate floor `F > 0`, starting at
`10 + F/2` km/h the guard `speed_kmh > 10` passes and the decrease lands
at `F/2 < F`. -/
theorem c9_counterexample :
    ¬ ∃ F : ℚ, 0 < F ∧ ∀ s0 : ℚ,
      F ≤ (decrease_speed 1 (initAuto s0 1)).speed_kmh := by
  rintro ⟨F, hF, hall⟩
  have h := hall (10 + F / 2)
  unfold decrease_speed initAuto at h
  rw [if_pos (by dsimp only; linarith)] at h
  dsimp only at h
  linarith

/-- C9 amended: `decrease_speed` fires only when the speed exceeds
10 km/h and subtracts exactly 10, so a decrease keeps a positive speed
positive (and a refused decrease changes nothing), but no fixed positive
floor bounds the results from below; after every effective speed change
`distance_per_step` is recomputed as `speed_kmh * 1000 / 3600 * interval`
(a refused decrease leaves both fields unchanged). -/
theorem c9_amended :
    (∀ interval : ℚ, ∀ s : AutoSimulator,
      (increase_speed interval s).distance_per_step =
        (increase_speed interval s).speed_kmh * 1000 / 3600 * interval)
    ∧ (∀ interval : ℚ, ∀ s : AutoSimulator,
      s.distance_per_step = s.speed_kmh * 1000 / 3600 * interval →
        (decrease_speed interval s).distance_per_step =
          (decrease_speed interval s).speed_kmh * 1000 / 3600 * interval)
    ∧ (∀ interval : ℚ, ∀ s : AutoSimulator,
      0 < s.speed_kmh → 0 < (decrease_speed interval s).speed_kmh)
    ∧ (∀ interval : ℚ, ∀ s : AutoSimulator,
      ¬ 10 < s.speed_kmh → decrease_speed interval s = s) := by
  refine ⟨fun interval s => rfl, fun interval s h => ?_, fun interval s h => ?_,
    fun interval s h => ?_⟩
  · unfold decrease_speed
    split_ifs <;> first
    | rfl
    | exact h
  · unfold decrease_speed
    split_ifs with h10
    · dsimp only
      linarith
    · exact h
  · unfold decrease_speed
    rw [if_neg h]

/-- Witness for C9 amended at a concrete input: a simulator at 60 km/h
with a 1-second interval. -/
theorem c9_witness :
    ((decrease_speed 1 (initAuto 60 1)).distance_per_step =
      (decrease_speed 1 (initAuto 60 1)).speed_kmh * 1000 / 3600 * 1)
    ∧ 0 < (decrease_speed 1 (initAuto 60 1)).speed_kmh :=
  ⟨c9_amended.2.1 1 (initAuto 60 1) rfl,
   c9_amended.2.2.1 1 (initAuto 60 1) (by norm_num [initAuto])⟩

/-- C10: starting from a freshly constructed simulator on a route with at
least one point, any sequence of operations (moves and speed changes)
keeps `current_segment` strictly below `len(route)`, and whenever the
cursor sits at the last point index `len(route) - 1` a further `move` is
a no-op that returns the route's terminal point. -/
theorem c10_segment_invariant (route : List (ℚ × ℚ))
    (dist : (ℚ × ℚ) → (ℚ × ℚ) → ℚ) (sp iv : ℚ)
    (hn : 1 ≤ route.length) (ops : List SimOp) :
    (runOps route dist iv ops (initAuto sp iv)).current_segment < route.length
    ∧ ((runOps route dist iv ops (initAuto sp iv)).current_segment =
        route.length - 1 →
      move route dist (runOps route dist iv ops (initAuto sp iv)) =
        runOps route dist iv ops (initAuto sp iv)
      ∧ moveReturn route dist (runOps route dist iv ops (initAuto sp iv)) =
        route.getLastD (0, 0)) := by
  have hle : (runOps route dist iv ops (initAuto sp iv)).current_segment ≤
      route.length - 1 :=
    runOps_current_segment_le route dist iv ops (initAuto sp iv)
      (by simp [initAuto])
  refine ⟨by omega, fun hterm => ?_⟩
  have hmove := move_of_terminal route dist
    (runOps route dist iv ops (initAuto sp iv)) (by omega)
  refine ⟨hmove, ?_⟩
  unfold moveReturn
  rw [hmove]
  exact get_current_position_of_terminal route
    (runOps route dist iv ops (initAuto sp iv)) (by omega)

/-- Witness for C10 at a concrete input: the two-point route, one move
followed by a speed increase and a refused decrease. -/
theorem c10_witness :
    ((runOps routeC2 distOne 1
        [SimOp.move, SimOp.increase_speed, SimOp.decrease_speed]
        (initAuto 60 1)).current_segment < routeC2.length)
    ∧ ((runOps routeC2 distOne 1
        [SimOp.move, SimOp.increase_speed, SimOp.decrease_speed]
        (initAuto 60 1)).current_segment = routeC2.length - 1 →
      move routeC2 distOne (runOps routeC2 distOne 1
        [SimOp.move, SimOp.increase_speed, SimOp.decrease_speed]
        (initAuto 60 1)) =
        runOps routeC2 distOne 1
          [SimOp.move, SimOp.increase_speed, SimOp.decrease_speed]
          (initAuto 60 1)
      ∧ moveReturn routeC2 distOne (runOps routeC2 distOne 1
          [SimOp.move, SimOp.increase_speed, SimOp.decrease_speed]
          (initAuto 60 1)) = routeC2.getLastD (0, 0)) :=
  c10_segment_invariant routeC2 distOne 60 1 (by norm_num [routeC2])
    [SimOp.move, SimOp.increase_speed, SimOp.decrease_speed]

/-- One `move` below the last point index strictly increases the state in
the lexicographic order on `(current_segment, progress)`, provided the
per-step distance is positive and every segment has positive length. -/
theorem move_lexLt (route : List (ℚ × ℚ)) (dist : (ℚ × ℚ) → (ℚ × ℚ) → ℚ)
    (s : AutoSimulator) (hdps : 0 < s.distance_per_step)
    (hseg : ∀ i, i < route.length - 1 →
      0 < dist (route.getD i (0, 0)) (route.getD (i + 1) (0, 0)))
    (hc : s.current_segment < route.length - 1) :
    lexLt s (move route dist s) := by
  have hL := hseg s.current_segment hc
  unfold move
  rw [if_neg (by omega : ¬ ((route.length : ℤ) - 1 ≤ (s.current_segment : ℤ))),
    if_neg (ne_of_gt hL)]
  split_ifs with h3 h4 h5
  · exact Or.inl (by dsimp only; omega)
  · exact Or.inl (by dsimp only; omega)
  · exact Or.inl (by dsimp only; omega)
  · exact Or.inr ⟨rfl, by dsimp only; have := div_pos hdps hL; linarith⟩

/-- C2 counterexample: on a two-point route with a nonzero segment and a
per-step distance of exactly the segment length, `is_finished()` never
becomes true — the first `move` already advances the cursor to the last
point index while resetting `progress` to `0`, and `progress` can never
again reach `1`, so the claim that `isFinished()` becomes true exactly
once fails. -/
theorem c2_counterexample :
    ¬ ∃ k : ℕ, is_finished routeC2
      ((move routeC2 distOne)^[k] (initAuto (18 / 5) 1)) = true := by
  rintro ⟨k, hk⟩
  have hp := iterate_move_progress_lt_one routeC2 distOne (initAuto (18 / 5) 1)
    (by norm_num [initAuto]) k
  unfold is_finished at hk
  rw [decide_eq_false (not_le.mpr hp), Bool.and_false] at hk
  exact Bool.false_ne_true hk

/-- C2 amended: for a route with at least two points, all segments of
positive length, positive speed and positive step interval, repeated
`move` from a fresh simulator is strictly monotonic in the lexicographic
order on `(current_segment, progress)` until `current_segment` reaches
the last point index `len(route) - 1`; from then on every `move` is a
no-op returning the route's final point — but `is_finished()` never
becomes `true` (entering the last index resets `progress` to `0` and the
state is frozen, so `progress >= 1.0` is never satisfied there). -/
theorem c2_monotone_until_last_index (route : List (ℚ × ℚ))
    (dist : (ℚ × ℚ) → (ℚ × ℚ) → ℚ) (sp iv : ℚ) (hn : 2 ≤ route.length)
    (hseg : ∀ i, i < route.length - 1 →
      0 < dist (route.getD i (0, 0)) (route.getD (i + 1) (0, 0)))
    (hsp : 0 < sp) (hiv : 0 < iv) (k : ℕ) :
    (((move route dist)^[k] (initAuto sp iv)).current_segment <
        route.length - 1 →
      lexLt ((move route dist)^[k] (initAuto sp iv))
        (move route dist ((move route dist)^[k] (initAuto sp iv))))
    ∧ (route.length - 1 ≤
        ((move route dist)^[k] (initAuto sp iv)).current_segment →
      move route dist ((move route dist)^[k] (initAuto sp iv)) =
        (move route dist)^[k] (initAuto sp iv)
      ∧ moveReturn route dist ((move route dist)^[k] (initAuto sp iv)) =
        route.getLastD (0, 0))
    ∧ is_finished route ((move route dist)^[k] (initAuto sp iv)) = false := by
  have hdps : ((move route dist)^[k] (initAuto sp iv)).distance_per_step =
      sp * 1000 / 3600 * iv :=
    iterate_move_distance_per_step route dist (initAuto sp iv) k
  have hp := iterate_move_progress_lt_one route dist (initAuto sp iv)
    (by norm_num [initAuto]) k
  refine ⟨fun hc => ?_, fun hterm => ?_, ?_⟩
  · exact move_lexLt route dist _ (by rw [hdps]; positivity) hseg hc
  · have hmove := move_of_terminal route dist
      ((move route dist)^[k] (initAuto sp iv)) (by omega)
    refine ⟨hmove, ?_⟩
    unfold moveReturn
    rw [hmove]
    exact get_current_position_of_terminal route
      ((move route dist)^[k] (initAuto sp iv)) (by omega)
  · unfold is_finished
    rw [decide_eq_false (not_le.mpr hp), Bool.and_false]

/-- Witness for C2 amended at a concrete input: the two-point route with
100-meter segments, 60 km/h, 1-second ticks, at tick 0. -/
theorem c2_witness :
    lexLt ((move routeC2 distHundred)^[0] (initAuto 60 1))
      (move routeC2 distHundred ((move routeC2 distHundred)^[0] (initAuto 60 1)))
    ∧ is_finished routeC2 ((move routeC2 distHundred)^[0] (initAuto 60 1)) =
      false := by
  have h := c2_monotone_until_last_index routeC2 distHundred 60 1
    (by norm_num [routeC2])
    (by intro i hi; norm_num [distHundred])
    (by norm_num) (by norm_num) 0
  exact ⟨h.1 (by simp [routeC2, initAuto]), h.2.2⟩

/-! ## Risk-engine fixtures and helper lemmas -/

/-- A three-row raw dataset whose first row has an unparseable date: the
loader drops it, so the surviving rows keep labels `1` and `2` while
occupying positions `0` and `1`. -/
def rawC1 : List RawRow :=
  [⟨none, some 99, some 99⟩,
   ⟨some (2021, 10, 100), some 0, some 0⟩,
   ⟨some (2021, 12, 200), some 50, some 50⟩]

/-- The loaded dataframe for `rawC1`: labels 1 and 2. -/
def gdfC1 : List (ℕ × Record) :=
  [(1, ⟨10, 100, 0, 0⟩), (2, ⟨12, 200, 50, 50⟩)]

/-- The rtree entries built from `gdfC1`. -/
def idxC1 : List (ℕ × ℚ × ℚ) := [(1, 0, 0), (2, 50, 50)]

/-- A query window around the origin. -/
def oknoC1 : Box := ⟨-1, -1, 1, 1⟩

/-- A one-row 2021 dataset with an accident at hour 23, day 100, located
at the origin. -/
def rawC6 : List RawRow := [⟨some (2021, 23, 100), some 0, some 0⟩]

/-- The loaded dataframe for `rawC6`. -/
def gdfC6 : List (ℕ × Record) := [(0, ⟨23, 100, 0, 0⟩)]

/-- The rtree entries built from `gdfC6`. -/
def idxC6 : List (ℕ × ℚ × ℚ) := [(0, 0, 0)]

/-- A one-row valid 2021 dataset. -/
def rawC4 : List RawRow := [⟨some (2021, 10, 100), some 0, some 0⟩]

/-- For any index type other than `'rtree'`, `_izgradi_indeks` yields no
index (the `'geohash'` branch is an unimplemented placeholder returning
`None`, and unknown types return `None`). -/
theorem izgradi_indeks_of_ne_rtree (gdf : Option (List (ℕ × Record)))
    (tip : String) (h : tip ≠ "rtree") : izgradi_indeks gdf tip = none := by
  cases gdf with
  | none => rfl
  | some g =>
    unfold izgradi_indeks
    dsimp only
    rw [if_neg h]
    split_ifs <;> rfl

/-- When no index is built, construction raises. -/
theorem init_error_of_no_index (data : Option (List RawRow)) (tip : String)
    (h : izgradi_indeks (ucitaj_i_pripremi_podatke data) tip = none) :
    initAccidentWarningSystem data tip =
      .error "Indeks nije uspesno izgradjen. Prekidam rad." := by
  simp only [initAccidentWarningSystem]
  rw [h]

/-! ## Claims about the risk engine -/

/-- C1 (code bug): on a dataset where the loader dropped a row, the rtree
candidate ids — which are dataframe labels — are misused as `iloc`
positions, so the refinement can inspect the wrong rows and lose records
that lie inside the window.  Here record 1 at the origin lies inside the
window, the index correctly nominates its label `1`, but `iloc[[1]]`
selects the positional row 1 (record 2 at `(50, 50)`, outside), and the
query returns `broj_ukupno = 0` although the exact in-window count is 1
— a false negative, contradicting the claim. -/
theorem c1_label_position_mismatch :
    ucitaj_i_pripremi_podatke (some rawC1) = some gdfC1
    ∧ izgradi_indeks (some gdfC1) "rtree" = some idxC1
    ∧ indeksIntersection idxC1 oknoC1 = [1]
    ∧ proveri_opasnosti_na_deonici gdfC1 idxC1 oknoC1 12 100 = some (0, 0, 0)
    ∧ exactCountInWindow gdfC1 oknoC1 = 1 := by
  refine ⟨rfl, rfl, rfl, rfl, rfl⟩

/-- C4 counterexample: an engine constructed with the geohash backend is
not usable — construction with `tip_indeksa = 'geohash'` raises even on a
perfectly loadable dataset, because the geohash branch returns no
index. -/
theorem c4_counterexample :
    initAccidentWarningSystem (some rawC4) "geohash" =
      .error "Indeks nije uspesno izgradjen. Prekidam rad." := rfl

/-- C4 amended: the geohash backend is an unimplemented placeholder, so
no refined candidate set of a geohash engine exists to compare with the
rtree one: every construction with the geohash backend fails, while the
rtree backend on the same dataset succeeds and indexes every loaded
record. -/
theorem c4_geohash_unimplemented :
    (∀ data : Option (List RawRow),
      initAccidentWarningSystem data "geohash" =
        .error "Indeks nije uspesno izgradjen. Prekidam rad.")
    ∧ initAccidentWarningSystem (some rawC4) "rtree" =
        .ok ⟨some [(0, ⟨10, 100, 0, 0⟩)], some [(0, 0, 0)]⟩ :=
  ⟨fun data => init_error_of_no_index data "geohash"
    (izgradi_indeks_of_ne_rtree _ _ (by decide)),
   rfl⟩

/-- C8: requesting an unsupported backend, or failing to load the
dataset, makes construction raise; and every successfully constructed
engine carries a non-`None` index. -/
theorem c8_no_engine_without_index :
    (∀ (data : Option (List RawRow)) (tip : String), tip ≠ "rtree" →
      initAccidentWarningSystem data tip =
        .error "Indeks nije uspesno izgradjen. Prekidam rad.")
    ∧ (∀ tip : String, initAccidentWarningSystem none tip =
        .error "Indeks nije uspesno izgradjen. Prekidam rad.")
    ∧ (∀ (data : Option (List RawRow)) (tip : String)
        (sys : AccidentWarningSystem),
      initAccidentWarningSystem data tip = .ok sys → sys.indeks ≠ none) := by
  refine ⟨fun data tip htip => init_error_of_no_index data tip
      (izgradi_indeks_of_ne_rtree _ _ htip),
    fun tip => init_error_of_no_index none tip ?_, ?_⟩
  · cases htip : decide (tip = "rtree") <;> unfold izgradi_indeks <;> rfl
  · intro data tip sys h
    simp only [initAccidentWarningSystem] at h
    cases hidx : izgradi_indeks (ucitaj_i_pripremi_podatke data) tip with
    | none =>
      rw [hidx] at h
      exact absurd h (by simp)
    | some idx =>
      rw [hidx] at h
      injection h with h'
      rw [← h']
      simp

/-- Witness for C8 at concrete inputs: an unknown backend type fails, and
the engine built with the rtree backend on a one-row dataset has a
non-`None` index. -/
theorem c8_witness :
    initAccidentWarningSystem (some rawC4) "quadtree" =
      .error "Indeks nije uspesno izgradjen. Prekidam rad."
    ∧ (⟨some [(0, ⟨10, 100, 0, 0⟩)], some [(0, 0, 0)]⟩ :
        AccidentWarningSystem).indeks ≠ none :=
  ⟨c8_no_engine_without_index.1 (some rawC4) "quadtree" (by decide),
   c8_no_engine_without_index.2.2 (some rawC4) "rtree" _ rfl⟩

/-- C6: the temporal filters of `proveri_opasnosti_na_deonici` are plain
integer-interval tests without any modular wrap: the hour count is the
number of refined candidates with `hourOfDay` in `[sat - 1, sat + 1]` and
the day count the number with `dayOfYear` in `[dan - 30, dan + 30]`, both
over `ℤ` (so at hour `0` the interval is `[-1, 1]`); concretely, a
query at hour 0 over a dataset whose only in-window accident happened at
hour 23 counts it in `broj_ukupno` but not in `broj_doba_dana`. -/
theorem c6_no_temporal_wrap :
    (∀ (gdf : List (ℕ × Record)) (idx : List (ℕ × ℚ × ℚ)) (w : Box)
        (sat dan : ℤ),
      proveri_opasnosti_na_deonici gdf idx w sat dan =
        (refinedCandidates gdf idx w).map fun R =>
          (R.length,
           (R.filter fun r =>
             decide (sat - 1 ≤ (r.sat : ℤ) ∧ (r.sat : ℤ) ≤ sat + 1)).length,
           (R.filter fun r =>
             decide (dan - 30 ≤ (r.dan_u_godini : ℤ) ∧
               (r.dan_u_godini : ℤ) ≤ dan + 30)).length))
    ∧ refinedCandidates gdfC6 idxC6 oknoC1 = some [⟨23, 100, 0, 0⟩]
    ∧ proveri_opasnosti_na_deonici gdfC6 idxC6 oknoC1 0 100 = some (1, 0, 1) := by
  refine ⟨?_, rfl, rfl⟩
  intro gdf idx w sat dan
  simp only [proveri_opasnosti_na_deonici, refinedCandidates,
    VREMENSKI_OPSEG_SATI, VREMENSKI_OPSEG_DANA]
  by_cases hids : indeksIntersection idx w = []
  · rw [hids]
    simp [ilocAll]
  · rw [if_neg hids]
    cases hloc : ilocAll (gdf.map (·.2)) (indeksIntersection idx w) with
    | none => rfl
    | some rows =>
      simp only [Option.map_some']
      by_cases hz : (rows.filter fun r => intersectsPoint w r.lon r.lat).length = 0
      · rw [if_pos hz]
        rw [List.length_eq_zero.mp hz]
        rfl
      · rw [if_neg hz]

end BazaMapa
